import Mathlib

/-!
Shallow embedding of the Dune Analytics MCP server (`src/main.py`) and proofs
about its parameter-coercion, result-shaping and error-containment behaviour.

Python values are modelled by `PyVal`, Python exceptions by `PyErr`, and the
external `dune_client` collaborator by a `RemoteClient` record of oracles whose
calls return `Except PyErr _`.  Each tool is translated as a `*_body` function
(the code inside the `try:` block) wrapped by `tryExcept` (the `except` clause).
-/

namespace DuneMCP

/-- Model of the Python runtime values that can flow through the adapter.
`obj s` stands for any other Python object whose `str()` form is `s`. -/
inductive PyVal where
  | str : String → PyVal
  | int : Int → PyVal
  | float : Rat → PyVal
  | bool : Bool → PyVal
  | none : PyVal
  | list : List PyVal → PyVal
  | dict : List (String × PyVal) → PyVal
  | obj : String → PyVal
deriving Repr

/-- Single-quote a string, as Python `repr` does (escaping elided). -/
def pyquote (s : String) : String :=
  String.singleton (Char.ofNat 39) ++ s ++ String.singleton (Char.ofNat 39)

mutual

/-- Python `repr()` of a modelled value (string escaping simplified to plain
single-quoting; float formatting simplified to the rational‘s print form). -/
def pyrepr : PyVal → String
  | .str s => pyquote s
  | .int n => toString n
  | .float q => toString q
  | .bool b => if b then "True" else "False"
  | .none => "None"
  | .obj s => s
  | .list xs => "[" ++ pyreprList xs ++ "]"
  | .dict kvs => "\x7b" ++ pyreprDict kvs ++ "\x7d"

/-- Comma-separated `repr`s of list elements. -/
def pyreprList : List PyVal → String
  | [] => ""
  | [v] => pyrepr v
  | v :: vs => pyrepr v ++ ", " ++ pyreprList vs

/-- Comma-separated `key: value` renderings of dict entries. -/
def pyreprDict : List (String × PyVal) → String
  | [] => ""
  | [(k, v)] => pyquote k ++ ": " ++ pyrepr v
  | (k, v) :: kvs => pyquote k ++ ": " ++ pyrepr v ++ ", " ++ pyreprDict kvs

end

/-- Python `str()` of a modelled value: identity on strings, `repr` otherwise
(which agrees with CPython for ints, floats, bools, `None` and containers). -/
def pystr : PyVal → String
  | .str s => s
  | v => pyrepr v

/-- The Python exceptions the embedded code can raise.  Each constructor
carries the message that `str(e)` would produce (type names that CPython
interpolates into messages are abstracted away). -/
inductive PyErr where
  | valueError : String → PyErr
  | keyError : String → PyErr
  | attributeError : String → PyErr
  | remoteError : String → PyErr
deriving Repr, DecidableEq

/-- The `str(e)` rendering used by the `except` clauses. -/
def PyErr.toMessage : PyErr → String
  | .valueError m => m
  | .keyError m => m
  | .attributeError m => m
  | .remoteError m => m

/-- Parameter kinds of `dune_client.types.QueryParameter`. -/
inductive ParamType where
  | text | number | date | enum
deriving Repr, DecidableEq

/-- Rendering of the parameter-kind enum used when a parameter is echoed in a
tool response. -/
def ParamType.pyval : ParamType → PyVal
  | .text => .str "text"
  | .number => .str "number"
  | .date => .str "date"
  | .enum => .str "enum"

/-- Model of `dune_client.types.QueryParameter` as the adapter uses it: the
code reads `p.key`, `p.type` and `p.value`. -/
structure QueryParameter where
  key : String
  type : ParamType
  value : PyVal
deriving Repr

/-- Constructor `QueryParameter.text_type(name, value)`. -/
def QueryParameter.text_type (key : String) (value : PyVal) : QueryParameter :=
  ⟨key, .text, value⟩

/-- Constructor `QueryParameter.number_type(name, value)`. -/
def QueryParameter.number_type (key : String) (value : PyVal) : QueryParameter :=
  ⟨key, .number, value⟩

/-- Constructor `QueryParameter.date_type(name, value)`. -/
def QueryParameter.date_type (key : String) (value : PyVal) : QueryParameter :=
  ⟨key, .date, value⟩

/-- Constructor `QueryParameter.enum_type(name, value)`. -/
def QueryParameter.enum_type (key : String) (value : PyVal) : QueryParameter :=
  ⟨key, .enum, value⟩

/-- Python `isinstance(value, str)`. -/
def isinstStr : PyVal → Bool
  | .str _ => true
  | _ => false

/-- Python `isinstance(value, (int, float))`.  `bool` is a subclass of `int`
in Python, so booleans satisfy this check. -/
def isinstIntOrFloat : PyVal → Bool
  | .int _ => true
  | .float _ => true
  | .bool _ => true
  | _ => false

/-- One iteration of the simple coercion loop in `execute_query`
(src/main.py lines 96-102). -/
def coerceOne (key : String) (value : PyVal) : QueryParameter :=
  if isinstStr value then
    QueryParameter.text_type key value
  else if isinstIntOrFloat value then
    QueryParameter.number_type key value
  else
    QueryParameter.text_type key (.str (pystr value))

/-- The simple coercion path of `execute_query`: the `parameters` dict is
modelled as an association list in its (insertion = iteration) order. -/
def coerceSimple (parameters : List (String × PyVal)) : List QueryParameter :=
  parameters.map fun kv => coerceOne kv.1 kv.2

/-- Digits to the natural number they denote. -/
def digitsToNat (ds : List Char) : Nat :=
  ds.foldl (fun a c => 10 * a + (c.toNat - 48)) 0

/-- A nonempty all-digit string parsed as a natural number. -/
def parseNat? (ds : List Char) : Option Nat :=
  if ds ≠ [] ∧ ds.all Char.isDigit then some (digitsToNat ds) else Option.none

/-- Strip an optional leading sign, returning the sign as `1` or `-1`. -/
def parseSign : List Char → Int × List Char
  | '+' :: cs => (1, cs)
  | '-' :: cs => (-1, cs)
  | cs => (1, cs)

/-- An optionally signed decimal mantissa (`12`, `12.`, `.5`, `3.25`, ...). -/
def parseMantissa? (cs : List Char) : Option Rat :=
  let (sg, rest) := parseSign cs
  match rest.splitOn '.' with
  | [ds] => (parseNat? ds).map fun n => (sg : Rat) * n
  | [a, b] =>
      if (a ≠ [] ∨ b ≠ []) ∧ a.all Char.isDigit ∧ b.all Char.isDigit then
        some ((sg : Rat) * ((digitsToNat a : Rat) + (digitsToNat b : Rat) / (10 : Rat) ^ b.length))
      else
        Option.none
  | _ => Option.none

/-- Model of the Python builtin `float()` on decimal literals with an optional
exponent part.  The exotic inputs `float` also accepts (`inf`, `nan`,
underscores, surrounding whitespace) are outside the model; the exact binary
rounding of CPython floats is abstracted by exact rationals. -/
def pyFloatVal? (s : String) : Option Rat :=
  let cs := s.toList.map fun c => if c = 'E' then 'e' else c
  match cs.splitOn 'e' with
  | [m] => parseMantissa? m
  | [m, ex] => do
      let mv ← parseMantissa? m
      let (es, eds) := parseSign ex
      let en ← parseNat? eds
      pure (mv * (10 : Rat) ^ (es * (en : Int)))
  | _ => Option.none

/-- A Python `Dict[str, str]` parameter description, e.g.
`\x7b"name": "n", "type": "number", "value": "3"\x7d`. -/
abbrev ParamSpec := List (String × String)

/-- Python `d.get(k, dflt)`. -/
def dictGet (d : ParamSpec) (k dflt : String) : String :=
  (d.lookup k).getD dflt

/-- Python `d[k]`, raising `KeyError` when the key is absent. -/
def dictGetItem (d : ParamSpec) (k : String) : Except PyErr String :=
  match d.lookup k with
  | some v => pure v
  | Option.none => throw (.keyError (pyquote k))

/-- One iteration of the rich coercion loop in `create_query`
(src/main.py lines 137-149). -/
def coerceRichParam (param : ParamSpec) : Except PyErr QueryParameter := do
  let param_type := dictGet param "type" "text"
  let param_name ← dictGetItem param "name"
  let param_value := dictGet param "value" ""
  if param_type = "number" then
    if param_value = "" then
      pure (QueryParameter.number_type param_name (.int 0))
    else
      match pyFloatVal? param_value with
      | some q => pure (QueryParameter.number_type param_name (.float q))
      | Option.none =>
          throw (.valueError ("could not convert string to float: " ++ pyquote param_value))
  else if param_type = "date" then
    pure (QueryParameter.date_type param_name (.str param_value))
  else if param_type = "enum" then
    pure (QueryParameter.enum_type param_name (.str param_value))
  else
    pure (QueryParameter.text_type param_name (.str param_value))

/-- Model of `dune_client.query.QueryBase` as constructed by `execute_query`. -/
structure QueryBase where
  query_id : Int
  name : String
  params : Option (List QueryParameter)
deriving Repr

/-- The `base` section of a remote query object (`query.base`): the adapter
reads `query_id`, `name`, `parameters()` and `url()`. -/
structure QueryBaseObj where
  query_id : Int
  name : String
  parameters : List QueryParameter
  url : String
deriving Repr

/-- The `meta` section of a remote query object (`query.meta`). -/
structure QueryMeta where
  owner : String
  is_private : Bool
  is_archived : Bool
  description : Option String
  tags : List String
  version : Int
  engine : String
deriving Repr

/-- A remote query object as returned by `client.get_query` and
`client.create_query`. -/
structure QueryObj where
  base : QueryBaseObj
  meta : QueryMeta
  sql : String
deriving Repr

/-- One entry of `results.result.metadata.column_names` as the adapter reads
it: the code accesses `col.name` on each entry, which raises
`AttributeError` when the attribute is missing (`name? = Option.none`). -/
structure RawColumn where
  name? : Option String
deriving Repr

/-- The `metadata` attribute of a nested result payload; `column_names` may be
missing on a malformed payload. -/
structure RawMetadata where
  column_names? : Option (List RawColumn)
deriving Repr

/-- The nested `results.result` payload; `rows` and `metadata` may be missing
on a malformed payload, in which case attribute access raises. -/
structure RawResult where
  rows? : Option (List PyVal)
  metadata? : Option RawMetadata
deriving Repr

/-- A remote execution object as returned by `client.run_query` and
`client.get_latest_result`: `execution_id`, `state` and
`is_execution_finished` are always present; `result` is `None` while the
execution is pending or produced nothing. -/
structure RawExec where
  execution_id : String
  state : String
  result : Option RawResult
  is_execution_finished : Bool
deriving Repr

/-- Python attribute access on a possibly-missing attribute: raises
`AttributeError` when absent (CPython's message also names the object's
type, which the model abstracts away). -/
def getattrOr (a : Option α) (attr : String) : Except PyErr α :=
  match a with
  | some v => pure v
  | Option.none => throw (.attributeError ("object has no attribute " ++ pyquote attr))

/-- The `{success: ...}` object returned by `client.create_table`. -/
structure TableResult where
  success : Bool
deriving Repr

/-- A schema entry passed through to `client.create_table` (a `Dict[str,str]`
with `name` and `type` keys, never inspected by the adapter). -/
abbrev SchemaEntry := List (String × String)

/-- Model of the external `DuneClient` collaborator: one oracle per remote
call the adapter makes, each of which may raise.  In `get_latest_result` the
second argument models the optional `max_age_hours` keyword
(`Option.none` = keyword omitted). -/
structure RemoteClient where
  get_query : Int → Except PyErr QueryObj
  run_query : QueryBase → Except PyErr RawExec
  create_query : String → String → Bool → Option (List QueryParameter) → Except PyErr QueryObj
  create_table : String → String → List SchemaEntry → String → Bool → Except PyErr TableResult
  upload_csv : String → String → String → Bool → Except PyErr Bool
  get_latest_result : Int → Option Int → Except PyErr RawExec

/-- The process environment: the `DUNE_API_KEY` variable and the client that
`DuneClient.from_env()` would construct from it.  The module-level
`dune_client` global only memoizes this pure construction, so the model
re-reads the environment on each use without loss. -/
structure DuneEnv where
  DUNE_API_KEY : Option String
  client : RemoteClient

/-- Python truthiness of `os.getenv(...)`: `None` and `""` are falsy. -/
def pyTruthyStrOpt : Option String → Bool
  | some s => s ≠ ""
  | Option.none => false

/-- Python truthiness of an optional list (`None` and `[]` are falsy). -/
def pyTruthyListOpt : Option (List α) → Bool
  | some l => !l.isEmpty
  | Option.none => false

/-- Python truthiness of an optional integer (`None` and `0` are falsy). -/
def pyTruthyIntOpt : Option Int → Bool
  | some n => n ≠ 0
  | Option.none => false

/-- Embedding of `get_dune_client` (src/main.py lines 15-23): raises
`ValueError` when the credential is unset or empty, otherwise yields the
client built from the environment. -/
def get_dune_client (env : DuneEnv) : Except PyErr RemoteClient :=
  if pyTruthyStrOpt env.DUNE_API_KEY then
    pure env.client
  else
    throw (.valueError "DUNE_API_KEY environment variable is required")

/-- A tool response: the plain Python dict the tool returns, in the literal's
key order. -/
abbrev ToolResponse := List (String × PyVal)

/-- The `try:/except Exception as e:` wrapper shared by all tools: a raised
exception becomes `\x7b"error": str(e), ...ctx\x7d` instead of propagating. -/
def tryExcept (ctx : ToolResponse) (body : Except PyErr ToolResponse) : ToolResponse :=
  match body with
  | .ok r => r
  | .error e => ("error", .str e.toMessage) :: ctx

/-- The `"value"` field rendered for an echoed parameter:
`str(p.value) if p.value is not None else None`. -/
def paramValueField : PyVal → PyVal
  | .none => .none
  | v => .str (pystr v)

/-- One entry of the `"parameters"` list echoed by `get_query` and
`create_query`. -/
def paramInfoDict (p : QueryParameter) : PyVal :=
  .dict [("name", .str p.key), ("type", p.type.pyval), ("value", paramValueField p.value)]

/-- Encoding of an optional string attribute (`None` or a string). -/
def optStr : Option String → PyVal
  | some s => .str s
  | Option.none => .none

/-- Body of the `get_query` tool (the code inside its `try:` block,
src/main.py lines 59-80). -/
def get_query_body (env : DuneEnv) (query_id : Int) : Except PyErr ToolResponse := do
  let client ← get_dune_client env
  let query ← client.get_query query_id
  pure [("query_id", .int query.base.query_id),
        ("name", .str query.base.name),
        ("sql", .str query.sql),
        ("owner", .str query.meta.owner),
        ("is_private", .bool query.meta.is_private),
        ("is_archived", .bool query.meta.is_archived),
        ("description", optStr query.meta.description),
        ("tags", .list (query.meta.tags.map PyVal.str)),
        ("version", .int query.meta.version),
        ("engine", .str query.meta.engine),
        ("parameters", .list (query.base.parameters.map paramInfoDict)),
        ("url", .str query.base.url)]

/-- The `get_query` tool (src/main.py lines 53-82). -/
def get_query (env : DuneEnv) (query_id : Int) : ToolResponse :=
  tryExcept [("query_id", .int query_id)] (get_query_body env query_id)

/-- The shared result-shaping expressions of `execute_query` and
`get_latest_query_result` (src/main.py lines 117-119): when the nested
payload is present its attributes are read in source order (`rows`, then
`metadata.column_names` with `col.name` on each entry), raising on a
malformed payload; when it is `None` every field takes its empty default. -/
def shapeFields (results : RawExec) : Except PyErr (Int × List String × List PyVal) := do
  match results.result with
  | Option.none => pure (0, [], [])
  | some res => do
      let rows ← getattrOr res.rows? "rows"
      let md ← getattrOr res.metadata? "metadata"
      let cols ← getattrOr md.column_names? "column_names"
      let names ← cols.mapM fun col => getattrOr col.name? "name"
      pure ((rows.length : Int), names, rows.take 100)

/-- Body of the `execute_query` tool (src/main.py lines 90-121). -/
def execute_query_body (env : DuneEnv) (query_id : Int)
    (parameters : Option (List (String × PyVal))) : Except PyErr ToolResponse := do
  let client ← get_dune_client env
  let query_params :=
    if pyTruthyListOpt parameters then coerceSimple (parameters.getD []) else []
  let query : QueryBase :=
    { query_id := query_id,
      name := "Query " ++ toString query_id,
      params := if query_params.isEmpty then Option.none else some query_params }
  let results ← client.run_query query
  let (row_count, columns, rows) ← shapeFields results
  pure [("query_id", .int query_id),
        ("execution_id", .str results.execution_id),
        ("state", .str results.state),
        ("row_count", .int row_count),
        ("columns", .list (columns.map PyVal.str)),
        ("rows", .list rows),
        ("is_execution_finished", .bool results.is_execution_finished)]

/-- The `execute_query` tool (src/main.py lines 84-123). -/
def execute_query (env : DuneEnv) (query_id : Int)
    (parameters : Option (List (String × PyVal))) : ToolResponse :=
  tryExcept [("query_id", .int query_id)] (execute_query_body env query_id parameters)

/-- Body of the `create_query` tool (src/main.py lines 131-170). -/
def create_query_body (env : DuneEnv) (name query_sql : String) (is_private : Bool)
    (parameters : Option (List ParamSpec)) : Except PyErr ToolResponse := do
  let client ← get_dune_client env
  let query_params ←
    if pyTruthyListOpt parameters then (parameters.getD []).mapM coerceRichParam
    else pure []
  let created ← client.create_query name query_sql is_private
    (if query_params.isEmpty then Option.none else some query_params)
  pure [("query_id", .int created.base.query_id),
        ("name", .str created.base.name),
        ("url", .str created.base.url),
        ("is_private", .bool created.meta.is_private),
        ("owner", .str created.meta.owner),
        ("parameters", .list (created.base.parameters.map paramInfoDict))]

/-- The `create_query` tool (src/main.py lines 125-172). -/
def create_query (env : DuneEnv) (name query_sql : String) (is_private : Bool)
    (parameters : Option (List ParamSpec)) : ToolResponse :=
  tryExcept [] (create_query_body env name query_sql is_private parameters)

/-- Body of the `create_table` tool (src/main.py lines 180-199); `ns` stands
for the `namespace` argument (a reserved word in Lean). -/
def create_table_body (env : DuneEnv) (ns table_name : String)
    (schema : List SchemaEntry) (description : String) (is_private : Bool) :
    Except PyErr ToolResponse := do
  let client ← get_dune_client env
  let result ← client.create_table ns table_name schema description is_private
  pure [("success", .bool result.success),
        ("full_table_name", .str ("dune." ++ ns ++ "." ++ table_name)),
        ("namespace", .str ns),
        ("table_name", .str table_name),
        ("description", .str description),
        ("is_private", .bool is_private),
        ("example_usage", .str ("SELECT * FROM dune." ++ ns ++ "." ++ table_name))]

/-- The `create_table` tool (src/main.py lines 174-201). -/
def create_table (env : DuneEnv) (ns table_name : String) (schema : List SchemaEntry)
    (description : String) (is_private : Bool) : ToolResponse :=
  tryExcept [] (create_table_body env ns table_name schema description is_private)

/-- Body of the `upload_csv_to_table` tool (src/main.py lines 209-226). -/
def upload_csv_to_table_body (env : DuneEnv) (table_name csv_data : String)
    (description : String) (is_private : Bool) : Except PyErr ToolResponse := do
  let client ← get_dune_client env
  let ok ← client.upload_csv table_name csv_data description is_private
  pure [("success", .bool ok),
        ("table_name", .str table_name),
        ("full_table_name", .str ("dune." ++ table_name)),
        ("description", .str description),
        ("is_private", .bool is_private),
        ("example_usage", .str ("SELECT * FROM dune." ++ table_name))]

/-- The `upload_csv_to_table` tool (src/main.py lines 203-228). -/
def upload_csv_to_table (env : DuneEnv) (table_name csv_data : String)
    (description : String) (is_private : Bool) : ToolResponse :=
  tryExcept [] (upload_csv_to_table_body env table_name csv_data description is_private)

/-- Body of the `get_latest_query_result` tool (src/main.py lines 236-253):
`if max_age_hours:` is Python truthiness, so both `None` and `0` take the
keyword-omitted call. -/
def get_latest_query_result_body (env : DuneEnv) (query_id : Int)
    (max_age_hours : Option Int) : Except PyErr ToolResponse := do
  let client ← get_dune_client env
  let results ←
    if pyTruthyIntOpt max_age_hours then
      client.get_latest_result query_id max_age_hours
    else
      client.get_latest_result query_id Option.none
  let (row_count, columns, rows) ← shapeFields results
  pure [("query_id", .int query_id),
        ("execution_id", .str results.execution_id),
        ("state", .str results.state),
        ("row_count", .int row_count),
        ("columns", .list (columns.map PyVal.str)),
        ("rows", .list rows),
        ("is_execution_finished", .bool results.is_execution_finished),
        ("cached", .bool true)]

/-- The `get_latest_query_result` tool (src/main.py lines 230-255). -/
def get_latest_query_result (env : DuneEnv) (query_id : Int)
    (max_age_hours : Option Int) : ToolResponse :=
  tryExcept [("query_id", .int query_id)] (get_latest_query_result_body env query_id max_age_hours)

/-- Python `sep.join(parts)`. -/
def joinSep (sep : String) : List String → String
  | [] => ""
  | [s] => s
  | s :: rest => s ++ sep ++ joinSep sep rest

/-- Python `s.startswith(pre)`, implemented structurally on the character
lists so that proofs can evaluate it on literals. -/
def pyStartsWith (s pre : String) : Bool :=
  pre.toList.isPrefixOf s.toList

/-- Qualification of one table name in `query_builder_helper`
(src/main.py line 267): `f"dune.\x7btable\x7d" if not table.startswith("dune.")
else table`. -/
def qualifyTable (table : String) : String :=
  if !(pyStartsWith table "dune.") then "dune." ++ table else table

/-- The comma-joined FROM clause built from a truthy `tables` list. -/
def buildFromClause (tables : List String) : String :=
  joinSep ", " (tables.map qualifyTable)

/-- The placeholder FROM clause used when `tables` is falsy. -/
def placeholderFromClause : String :=
  "-- Specify your tables here (e.g., dune.namespace.table_name)"

/-- The rendered `template` string of `query_builder_helper`
(src/main.py lines 265-287), with Python's f-string and `+=` steps spelled
out. -/
def templateSql (description : String) (tables : Option (List String))
    (filters : Option String) : String :=
  let from_clause :=
    if pyTruthyListOpt tables then buildFromClause (tables.getD [])
    else placeholderFromClause
  let template :=
    "\n-- Dune v2 SQL Query: " ++ description ++
    "\nSELECT\n    -- Select your columns here\n    *\nFROM " ++ from_clause ++ "\n"
  let template :=
    if pyTruthyStrOpt filters then template ++ "WHERE\n    " ++ filters.getD "" ++ "\n"
    else template
  template ++ "\n-- Optional: Add GROUP BY, ORDER BY, LIMIT clauses\n-- ORDER BY column_name\n-- LIMIT 1000\n"

/-- The bullet prefix of each tip: the source file literally contains the
mojibake bytes U+00E2 U+20AC U+2022 followed by a space. -/
def bulletPrefix : String :=
  String.mk [Char.ofNat 226, Char.ofNat 8364, Char.ofNat 8226, ' ']

/-- The fixed tips list (src/main.py lines 289-295); apostrophes and literal
braces of the source strings are spelled via `pyquote` and escapes. -/
def builderTips : List String :=
  ["Use " ++ pyquote "dune.namespace.table_name" ++ " format for user tables/materialized views",
   "Standard blockchain tables: ethereum.transactions, ethereum.blocks, etc.",
   "Use \x7b\x7bparameter_name\x7d\x7d for parameterized queries",
   "Cast numeric fields: CAST(gas_used AS uint256)",
   "Use DATE() functions for time filtering"]

/-- The `query_builder_helper` tool (src/main.py lines 257-303): purely local;
the tips are joined with the two-character separator `"\\n"` exactly as in
the source. -/
def query_builder_helper (description : String) (tables : Option (List String))
    (filters : Option String) : ToolResponse :=
  [("template_sql", .str (templateSql description tables filters)),
   ("tips", .str (joinSep "\\n" (builderTips.map fun tip => bulletPrefix ++ tip))),
   ("description", .str description)]

/-! ### Concrete stub environments used by witnesses and counterexamples -/

/-- A remote client whose every call fails, for exercising error containment. -/
def failClient : RemoteClient where
  get_query _ := throw (.remoteError "connection refused")
  run_query _ := throw (.remoteError "connection refused")
  create_query _ _ _ _ := throw (.remoteError "connection refused")
  create_table _ _ _ _ _ := throw (.remoteError "connection refused")
  upload_csv _ _ _ _ := throw (.remoteError "connection refused")
  get_latest_result _ _ := throw (.remoteError "connection refused")

/-- An environment with no `DUNE_API_KEY` set. -/
def envNoKey : DuneEnv where
  DUNE_API_KEY := Option.none
  client := failClient

/-- An environment whose client always fails remotely. -/
def envRemoteFail : DuneEnv where
  DUNE_API_KEY := some "k"
  client := failClient

/-- A well-formed completed execution object with two rows and two columns. -/
def okExec : RawExec where
  execution_id := "01JC0"
  state := "QUERY_STATE_COMPLETED"
  result := some
    { rows? := some [.dict [("a", .int 1), ("b", .str "x")],
                     .dict [("a", .int 2), ("b", .str "y")]],
      metadata? := some { column_names? := some [⟨some "a"⟩, ⟨some "b"⟩] } }
  is_execution_finished := true

/-- An execution object whose nested payload is present but lacks both `rows`
and `metadata`. -/
def malformedExec : RawExec where
  execution_id := "01JC1"
  state := "QUERY_STATE_COMPLETED"
  result := some { rows? := Option.none, metadata? := Option.none }
  is_execution_finished := true

/-- An execution object whose nested payload is absent (still pending). -/
def pendingExec : RawExec where
  execution_id := "01JC2"
  state := "QUERY_STATE_PENDING"
  result := Option.none
  is_execution_finished := false

/-- A client that reports fixed successful outcomes: `exec` for both
execution-shaped calls, a successful table creation, a successful upload. -/
def okClient (exec : RawExec) : RemoteClient where
  get_query _ := throw (.remoteError "not found")
  run_query _ := pure exec
  create_query _ _ _ _ := throw (.remoteError "not found")
  create_table _ _ _ _ _ := pure ⟨true⟩
  upload_csv _ _ _ _ := pure true
  get_latest_result _ _ := pure exec

/-- An environment around `okClient`. -/
def envOk (exec : RawExec) : DuneEnv where
  DUNE_API_KEY := some "k"
  client := okClient exec

/-! ### Helper lemmas -/

/-- Bind on a successful `Except` computation reduces to the continuation. -/
theorem exceptBindOk (a : α) (f : α → Except ε β) :
    (Except.ok a >>= f : Except ε β) = f a := rfl

/-- Bind on a failed `Except` computation propagates the failure. -/
theorem exceptBindError (e : ε) (f : α → Except ε β) :
    ((Except.error e : Except ε α) >>= f) = Except.error e := rfl

/-- Map on a successful `Except` computation applies the function. -/
theorem exceptMapOk (a : α) (f : α → β) :
    (f <$> (Except.ok a : Except ε α)) = Except.ok (f a) := rfl

/-- Map on a failed `Except` computation propagates the failure. -/
theorem exceptMapError (e : ε) (f : α → β) :
    (f <$> (Except.error e : Except ε α)) = Except.error e := rfl

/-- Bind on a pure `Except` computation reduces to the continuation. -/
theorem exceptBindPure (a : α) (f : α → Except ε β) :
    ((pure a : Except ε α) >>= f) = f a := rfl

/-- Attribute access on a present attribute succeeds with its value. -/
theorem getattrOr_some (a : α) (attr : String) : getattrOr (some a) attr = pure a := rfl

/-- Reading the `name` attribute of well-formed columns yields their names. -/
theorem mapM_colName (names : List String) :
    (names.map fun n => RawColumn.mk (some n)).mapM (fun col => getattrOr col.name? "name")
      = Except.ok names := by
  induction names with
  | nil => rfl
  | cons n ns ih => simp only [List.map_cons, List.mapM_cons, ih]; rfl

/-- A missing or empty credential makes `get_dune_client` raise. -/
theorem get_dune_client_noKey (env : DuneEnv)
    (h : pyTruthyStrOpt env.DUNE_API_KEY = false) :
    get_dune_client env
      = Except.error (.valueError "DUNE_API_KEY environment variable is required") := by
  simp [get_dune_client, h]; rfl

/-- A present, nonempty credential makes `get_dune_client` yield the client. -/
theorem get_dune_client_ok (env : DuneEnv) (k : String)
    (hkey : env.DUNE_API_KEY = some k) (hk : k ≠ "") :
    get_dune_client env = Except.ok env.client := by
  simp [get_dune_client, pyTruthyStrOpt, hkey, hk]; rfl

/-! ### C6: the simple coercion path -/

/-- C6: for every parameter mapping given to the simple coercion path of
`execute_query`, the output has exactly one `QueryParameter` per entry, in
the mapping's iteration order with no deduplication, and the kind is `text`
with the value unchanged for a string, `number` for an integer or a float,
and otherwise `text` with the value's `str()` form. -/
theorem coerceSimpleSpec :
    (∀ ps : List (String × PyVal), (coerceSimple ps).length = ps.length) ∧
    (∀ (ps : List (String × PyVal)) (i : Nat),
        (coerceSimple ps)[i]? = (ps[i]?).map fun kv => coerceOne kv.1 kv.2) ∧
    (∀ k s, coerceOne k (.str s) = QueryParameter.text_type k (.str s)) ∧
    (∀ k n, coerceOne k (.int n) = QueryParameter.number_type k (.int n)) ∧
    (∀ k q, coerceOne k (.float q) = QueryParameter.number_type k (.float q)) ∧
    (∀ k v, isinstStr v = false → isinstIntOrFloat v = false →
        coerceOne k v = QueryParameter.text_type k (.str (pystr v))) := by
  refine ⟨?_, ?_, ?_, ?_, ?_, ?_⟩
  · intro ps; simp [coerceSimple]
  · intro ps i; simp [coerceSimple]
  · intro k s; rfl
  · intro k n; rfl
  · intro k q; rfl
  · intro k v h1 h2; simp [coerceOne, h1, h2]

/-- Witness for `coerceSimpleSpec` at concrete inputs. -/
theorem coerceSimpleSpecWitness :
    (coerceSimple [("a", .str "x"), ("b", .int 3), ("a", .float (1 : Rat))]).length = 3 ∧
    (coerceSimple [("a", .str "x"), ("b", .int 3)])[1]?
      = some (QueryParameter.number_type "b" (.int 3)) ∧
    coerceOne "n" PyVal.none = QueryParameter.text_type "n" (.str "None") := by
  refine ⟨?_, ?_, ?_⟩
  · exact coerceSimpleSpec.1 [("a", .str "x"), ("b", .int 3), ("a", .float (1 : Rat))]
  · rw [coerceSimpleSpec.2.1 [("a", .str "x"), ("b", .int 3)] 1]; rfl
  · rw [coerceSimpleSpec.2.2.2.2.2 "n" PyVal.none rfl rfl]; rfl

/-! ### C10: booleans in the simple coercion path -/

/-- C10: a Python boolean parameter value satisfies `isinstance(value, (int,
float))` (since `bool` subclasses `int`), so the simple coercion path of
`execute_query` gives it kind `number`, not the stringified `text` fallback. -/
theorem boolParamCoercesToNumber :
    (∀ b : Bool, isinstIntOrFloat (.bool b) = true) ∧
    (∀ (k : String) (b : Bool),
        coerceOne k (.bool b) = QueryParameter.number_type k (.bool b)) ∧
    (∀ (k : String) (b : Bool),
        coerceOne k (.bool b) ≠ QueryParameter.text_type k (.str (pystr (.bool b)))) ∧
    (∀ (k : String) (b : Bool),
        coerceSimple [(k, .bool b)] = [QueryParameter.number_type k (.bool b)]) := by
  refine ⟨fun _ => rfl, fun _ _ => rfl, ?_, fun _ _ => rfl⟩
  intro k b h
  have : ParamType.number = ParamType.text := congrArg QueryParameter.type h
  exact ParamType.noConfusion this

/-! ### C7: the rich coercion path of `create_query` -/

/-- C7: in the rich coercion path, kind `number` parses the raw string to a
float, defaulting to `0` when it is empty, and an unparsable numeric string
raises `ValueError`, failing the whole `create_query` invocation with an
error envelope; kinds `date` and `enum` pass the raw string through
unmodified; any other or missing kind yields a `text` parameter. -/
theorem coerceRichSpec :
    (∀ p name, dictGet p "type" "text" = "number" → p.lookup "name" = some name →
        dictGet p "value" "" = "" →
        coerceRichParam p = Except.ok (QueryParameter.number_type name (.int 0))) ∧
    (∀ p name s q, dictGet p "type" "text" = "number" → p.lookup "name" = some name →
        dictGet p "value" "" = s → s ≠ "" → pyFloatVal? s = some q →
        coerceRichParam p = Except.ok (QueryParameter.number_type name (.float q))) ∧
    (∀ p name s, dictGet p "type" "text" = "number" → p.lookup "name" = some name →
        dictGet p "value" "" = s → s ≠ "" → pyFloatVal? s = Option.none →
        coerceRichParam p
          = Except.error (.valueError ("could not convert string to float: " ++ pyquote s))) ∧
    (∀ env k n sql priv p name s, env.DUNE_API_KEY = some k → k ≠ "" →
        dictGet p "type" "text" = "number" → p.lookup "name" = some name →
        dictGet p "value" "" = s → s ≠ "" → pyFloatVal? s = Option.none →
        create_query env n sql priv (some [p])
          = [("error", .str ("could not convert string to float: " ++ pyquote s))]) ∧
    (∀ p name s, dictGet p "type" "text" = "date" → p.lookup "name" = some name →
        dictGet p "value" "" = s →
        coerceRichParam p = Except.ok (QueryParameter.date_type name (.str s))) ∧
    (∀ p name s, dictGet p "type" "text" = "enum" → p.lookup "name" = some name →
        dictGet p "value" "" = s →
        coerceRichParam p = Except.ok (QueryParameter.enum_type name (.str s))) ∧
    (∀ p name s t, dictGet p "type" "text" = t → t ≠ "number" → t ≠ "date" → t ≠ "enum" →
        p.lookup "name" = some name → dictGet p "value" "" = s →
        coerceRichParam p = Except.ok (QueryParameter.text_type name (.str s))) := by
  have hbase : ∀ p name, p.lookup "name" = some name →
      ∀ r : Except PyErr QueryParameter,
        (if dictGet p "type" "text" = "number" then
          (if dictGet p "value" "" = "" then
            Except.ok (QueryParameter.number_type name (.int 0))
          else
            match pyFloatVal? (dictGet p "value" "") with
            | some q => Except.ok (QueryParameter.number_type name (.float q))
            | Option.none =>
                Except.error (.valueError ("could not convert string to float: " ++
                  pyquote (dictGet p "value" ""))))
        else if dictGet p "type" "text" = "date" then
          Except.ok (QueryParameter.date_type name (.str (dictGet p "value" "")))
        else if dictGet p "type" "text" = "enum" then
          Except.ok (QueryParameter.enum_type name (.str (dictGet p "value" "")))
        else
          Except.ok (QueryParameter.text_type name (.str (dictGet p "value" "")))) = r →
        coerceRichParam p = r := by
    intro p name hname r hr
    unfold coerceRichParam dictGetItem
    rw [hname]
    exact hr
  refine ⟨?_, ?_, ?_, ?_, ?_, ?_, ?_⟩
  · intro p name ht hname hv
    exact hbase p name hname _ (by rw [ht, hv]; simp)
  · intro p name s q ht hname hv hs hq
    exact hbase p name hname _ (by rw [ht, hv]; simp [hs, hq])
  · intro p name s ht hname hv hs hq
    exact hbase p name hname _ (by rw [ht, hv]; simp [hs, hq])
  · intro env k n sql priv p name s hkey hk ht hname hv hs hq
    have hco : coerceRichParam p
        = Except.error (.valueError ("could not convert string to float: " ++ pyquote s)) :=
      hbase p name hname _ (by rw [ht, hv]; simp [hs, hq])
    have hm : List.mapM coerceRichParam [p]
        = (Except.error (PyErr.valueError ("could not convert string to float: " ++ pyquote s))
            : Except PyErr (List QueryParameter)) := by
      rw [List.mapM_cons, hco]; rfl
    simp only [create_query, create_query_body, get_dune_client_ok env k hkey hk,
      exceptBindOk, pyTruthyListOpt, Option.getD, List.isEmpty, Bool.not_false, if_true,
      hm, exceptBindError, tryExcept, PyErr.toMessage]
  · intro p name s ht hname hv
    exact hbase p name hname _ (by rw [ht, hv]; simp)
  · intro p name s ht hname hv
    exact hbase p name hname _ (by rw [ht, hv]; simp)
  · intro p name s t ht htn htd hte hname hv
    exact hbase p name hname _ (by rw [ht, hv]; simp [htn, htd, hte])

/-- Witness for `coerceRichSpec` at concrete parameter dicts. -/
theorem coerceRichSpecWitness :
    coerceRichParam [("type", "number"), ("name", "x"), ("value", "")]
      = Except.ok (QueryParameter.number_type "x" (.int 0)) ∧
    coerceRichParam [("type", "number"), ("name", "x"), ("value", "2.5")]
      = Except.ok (QueryParameter.number_type "x" (.float ((5 : Rat) / 2))) ∧
    coerceRichParam [("type", "number"), ("name", "x"), ("value", "abc")]
      = Except.error (.valueError ("could not convert string to float: " ++ pyquote "abc")) ∧
    create_query envRemoteFail "n" "select 1" false
        (some [[("type", "number"), ("name", "x"), ("value", "abc")]])
      = [("error", .str ("could not convert string to float: " ++ pyquote "abc"))] ∧
    coerceRichParam [("type", "date"), ("name", "d"), ("value", "2024-01-01")]
      = Except.ok (QueryParameter.date_type "d" (.str "2024-01-01")) ∧
    coerceRichParam [("name", "t"), ("value", "v")]
      = Except.ok (QueryParameter.text_type "t" (.str "v")) := by
  refine ⟨?_, ?_, ?_, ?_, ?_, ?_⟩
  · exact coerceRichSpec.1 _ "x" rfl rfl rfl
  · refine coerceRichSpec.2.1 _ "x" "2.5" ((5 : Rat) / 2) rfl rfl rfl (by decide) ?_
    have h1 : pyFloatVal? "2.5"
        = some ((1 : Rat) * ((2 : Rat) + (5 : Rat) / (10 : Rat) ^ 1)) := rfl
    rw [h1]; norm_num
  · exact coerceRichSpec.2.2.1 _ "x" "abc" rfl rfl rfl (by decide) (by decide)
  · exact coerceRichSpec.2.2.2.1 envRemoteFail "k" "n" "select 1" false _ "x" "abc"
      rfl (by decide) rfl rfl rfl (by decide) (by decide)
  · exact coerceRichSpec.2.2.2.2.1 _ "d" "2024-01-01" rfl rfl rfl
  · exact coerceRichSpec.2.2.2.2.2.2 _ "t" "v" "text" rfl (by decide) (by decide) (by decide)
      rfl rfl

/-! ### C1: error containment at every tool boundary -/

/-- C1: for each of the six tool operations, any exception raised inside the
body — including the missing-credential `ValueError` on first client use
and any remote-client failure — yields a structured dictionary whose first
key is `"error"` (with the request's `query_id` echoed where the source does
so), and never propagates past the tool boundary; in particular a missing
or empty `DUNE_API_KEY` produces the error envelope naming that variable. -/
theorem toolErrorContainment :
    (∀ env qid e, get_query_body env qid = Except.error e →
        get_query env qid = [("error", .str e.toMessage), ("query_id", .int qid)]) ∧
    (∀ env qid ps e, execute_query_body env qid ps = Except.error e →
        execute_query env qid ps = [("error", .str e.toMessage), ("query_id", .int qid)]) ∧
    (∀ env n sql priv ps e, create_query_body env n sql priv ps = Except.error e →
        create_query env n sql priv ps = [("error", .str e.toMessage)]) ∧
    (∀ env ns t sch d priv e, create_table_body env ns t sch d priv = Except.error e →
        create_table env ns t sch d priv = [("error", .str e.toMessage)]) ∧
    (∀ env t csv d priv e, upload_csv_to_table_body env t csv d priv = Except.error e →
        upload_csv_to_table env t csv d priv = [("error", .str e.toMessage)]) ∧
    (∀ env qid mah e, get_latest_query_result_body env qid mah = Except.error e →
        get_latest_query_result env qid mah
          = [("error", .str e.toMessage), ("query_id", .int qid)]) ∧
    (∀ env, pyTruthyStrOpt env.DUNE_API_KEY = false → ∀ qid n sql priv ps rps t csv d
        sch mah,
        get_query env qid
            = [("error", .str "DUNE_API_KEY environment variable is required"),
               ("query_id", .int qid)] ∧
        execute_query env qid ps
            = [("error", .str "DUNE_API_KEY environment variable is required"),
               ("query_id", .int qid)] ∧
        create_query env n sql priv rps
            = [("error", .str "DUNE_API_KEY environment variable is required")] ∧
        create_table env n t sch d priv
            = [("error", .str "DUNE_API_KEY environment variable is required")] ∧
        upload_csv_to_table env t csv d priv
            = [("error", .str "DUNE_API_KEY environment variable is required")] ∧
        get_latest_query_result env qid mah
            = [("error", .str "DUNE_API_KEY environment variable is required"),
               ("query_id", .int qid)]) := by
  refine ⟨?_, ?_, ?_, ?_, ?_, ?_, ?_⟩
  · intro env qid e h; simp [get_query, tryExcept, h]
  · intro env qid ps e h; simp [execute_query, tryExcept, h]
  · intro env n sql priv ps e h; simp [create_query, tryExcept, h]
  · intro env ns t sch d priv e h; simp [create_table, tryExcept, h]
  · intro env t csv d priv e h; simp [upload_csv_to_table, tryExcept, h]
  · intro env qid mah e h; simp [get_latest_query_result, tryExcept, h]
  · intro env h qid n sql priv ps rps t csv d sch mah
    have hc := get_dune_client_noKey env h
    refine ⟨?_, ?_, ?_, ?_, ?_, ?_⟩
    · simp [get_query, get_query_body, hc, exceptBindError, tryExcept, PyErr.toMessage]
    · simp [execute_query, execute_query_body, hc, exceptBindError, tryExcept,
        PyErr.toMessage]
    · simp [create_query, create_query_body, hc, exceptBindError, tryExcept,
        PyErr.toMessage]
    · simp [create_table, create_table_body, hc, exceptBindError, tryExcept,
        PyErr.toMessage]
    · simp [upload_csv_to_table, upload_csv_to_table_body, hc, exceptBindError, tryExcept,
        PyErr.toMessage]
    · simp [get_latest_query_result, get_latest_query_result_body, hc, exceptBindError,
        tryExcept, PyErr.toMessage]

/-- Witness for `toolErrorContainment`: the missing-credential environment and
a failing remote client at concrete inputs. -/
theorem toolErrorContainmentWitness :
    get_query envNoKey 3
        = [("error", .str "DUNE_API_KEY environment variable is required"),
           ("query_id", .int 3)] ∧
    execute_query envRemoteFail 5 Option.none
        = [("error", .str "connection refused"), ("query_id", .int 5)] ∧
    upload_csv_to_table envRemoteFail "t" "a,b" "" false
        = [("error", .str "connection refused")] := by
  refine ⟨?_, ?_, ?_⟩
  · exact (toolErrorContainment.2.2.2.2.2.2 envNoKey rfl 3 "n" "s" false Option.none
      Option.none "t" "c" "d" [] Option.none).1
  · exact toolErrorContainment.2.1 envRemoteFail 5 Option.none
      (.remoteError "connection refused") rfl
  · exact toolErrorContainment.2.2.2.2.1 envRemoteFail "t" "a,b" "" false
      (.remoteError "connection refused") rfl

/-! ### C2: shaping of a present, well-formed nested result -/

/-- Shaping a present, well-formed payload yields the total row count, the
ordered column names and the 100-row prefix. -/
theorem shapeFields_present (results : RawExec) (rs : List PyVal) (names : List String)
    (hres : results.result = some
      { rows? := some rs,
        metadata? := some { column_names? := some (names.map fun n => ⟨some n⟩) } }) :
    shapeFields results = Except.ok ((rs.length : Int), names, rs.take 100) := by
  unfold shapeFields
  rw [hres]
  simp only [getattrOr_some, exceptBindPure, exceptBindOk, mapM_colName]
  rfl

/-- C2: for every execution result whose nested payload is present (and
well-formed), both `execute_query` and `get_latest_query_result` shape it
with `row_count` the total number of rows of the payload, `columns` the
ordered column names of its metadata, and `rows` exactly the 100-row prefix
of the source rows in their original order: `rows` has length `row_count`
when `row_count ≤ 100` and length `100` otherwise. -/
theorem shapedResultPrefix (env : DuneEnv) (k : String) (qid : Int)
    (ps : Option (List (String × PyVal))) (mah : Option Int)
    (results : RawExec) (rs : List PyVal) (names : List String)
    (hkey : env.DUNE_API_KEY = some k) (hk : k ≠ "")
    (hrun : ∀ q, env.client.run_query q = Except.ok results)
    (hlat : ∀ i h, env.client.get_latest_result i h = Except.ok results)
    (hres : results.result = some
      { rows? := some rs,
        metadata? := some { column_names? := some (names.map fun n => ⟨some n⟩) } }) :
    execute_query env qid ps
        = [("query_id", .int qid),
           ("execution_id", .str results.execution_id),
           ("state", .str results.state),
           ("row_count", .int rs.length),
           ("columns", .list (names.map PyVal.str)),
           ("rows", .list (rs.take 100)),
           ("is_execution_finished", .bool results.is_execution_finished)] ∧
    get_latest_query_result env qid mah
        = [("query_id", .int qid),
           ("execution_id", .str results.execution_id),
           ("state", .str results.state),
           ("row_count", .int rs.length),
           ("columns", .list (names.map PyVal.str)),
           ("rows", .list (rs.take 100)),
           ("is_execution_finished", .bool results.is_execution_finished),
           ("cached", .bool true)] ∧
    (rs.length ≤ 100 → (rs.take 100).length = rs.length) ∧
    (100 < rs.length → (rs.take 100).length = 100) := by
  have hshape := shapeFields_present results rs names hres
  refine ⟨?_, ?_, ?_, ?_⟩
  · simp [execute_query, execute_query_body, get_dune_client_ok env k hkey hk,
      exceptBindOk, hrun, hshape, tryExcept]
  · cases mah with
    | none =>
        simp [get_latest_query_result, get_latest_query_result_body,
          get_dune_client_ok env k hkey hk, exceptBindOk, pyTruthyIntOpt, hlat, hshape,
          tryExcept]
    | some h =>
        by_cases hz : h = 0
        · subst hz
          simp [get_latest_query_result, get_latest_query_result_body,
            get_dune_client_ok env k hkey hk, exceptBindOk, pyTruthyIntOpt, hlat, hshape,
            tryExcept]
        · simp [get_latest_query_result, get_latest_query_result_body,
            get_dune_client_ok env k hkey hk, exceptBindOk, pyTruthyIntOpt, hz, hlat,
            hshape, tryExcept]
  · intro h; simp [List.length_take]; omega
  · intro h; simp [List.length_take]; omega

/-- Witness for `shapedResultPrefix` at the concrete two-row execution. -/
theorem shapedResultPrefixWitness :
    execute_query (envOk okExec) 42 Option.none
        = [("query_id", .int 42),
           ("execution_id", .str "01JC0"),
           ("state", .str "QUERY_STATE_COMPLETED"),
           ("row_count", .int 2),
           ("columns", .list [.str "a", .str "b"]),
           ("rows", .list [.dict [("a", .int 1), ("b", .str "x")],
                           .dict [("a", .int 2), ("b", .str "y")]]),
           ("is_execution_finished", .bool true)] ∧
    get_latest_query_result (envOk okExec) 42 Option.none
        = [("query_id", .int 42),
           ("execution_id", .str "01JC0"),
           ("state", .str "QUERY_STATE_COMPLETED"),
           ("row_count", .int 2),
           ("columns", .list [.str "a", .str "b"]),
           ("rows", .list [.dict [("a", .int 1), ("b", .str "x")],
                           .dict [("a", .int 2), ("b", .str "y")]]),
           ("is_execution_finished", .bool true),
           ("cached", .bool true)] := by
  have h := shapedResultPrefix (envOk okExec) "k" 42 Option.none Option.none okExec
    [.dict [("a", .int 1), ("b", .str "x")], .dict [("a", .int 2), ("b", .str "y")]]
    ["a", "b"] rfl (by decide) (fun q => rfl) (fun i hh => rfl) rfl
  exact ⟨h.1, h.2.1⟩

/-! ### C3: shaping of an absent nested result -/

/-- C3: for every execution result whose nested payload is `None`, the shaped
response of `execute_query` has `row_count = 0`, `columns = []` and
`rows = []` regardless of the outer object's state, while `state` and
`is_execution_finished` are still copied from the outer object. -/
theorem shapedResultAbsent (env : DuneEnv) (k : String) (qid : Int)
    (ps : Option (List (String × PyVal))) (results : RawExec)
    (hkey : env.DUNE_API_KEY = some k) (hk : k ≠ "")
    (hrun : ∀ q, env.client.run_query q = Except.ok results)
    (hres : results.result = Option.none) :
    execute_query env qid ps
        = [("query_id", .int qid),
           ("execution_id", .str results.execution_id),
           ("state", .str results.state),
           ("row_count", .int 0),
           ("columns", .list []),
           ("rows", .list []),
           ("is_execution_finished", .bool results.is_execution_finished)] := by
  have hshape : shapeFields results = Except.ok (0, [], []) := by
    unfold shapeFields; rw [hres]; rfl
  simp [execute_query, execute_query_body, get_dune_client_ok env k hkey hk,
    exceptBindOk, hrun, hshape, tryExcept]

/-- Witness for `shapedResultAbsent` at the concrete pending execution. -/
theorem shapedResultAbsentWitness :
    execute_query (envOk pendingExec) 9 Option.none
        = [("query_id", .int 9),
           ("execution_id", .str "01JC2"),
           ("state", .str "QUERY_STATE_PENDING"),
           ("row_count", .int 0),
           ("columns", .list []),
           ("rows", .list []),
           ("is_execution_finished", .bool false)] :=
  shapedResultAbsent (envOk pendingExec) "k" 9 Option.none pendingExec rfl (by decide)
    (fun q => rfl) rfl

/-! ### C4: malformed present payloads (claim corrected) -/

/-- Counterexample to C4 as stated: on a present payload that lacks the `rows`
attribute, the shaping step raises `AttributeError` instead of producing
the empty defaults, and the tool answers with the error envelope, not with
`row_count = 0, columns = [], rows = []`. -/
theorem malformedShapingRaises :
    shapeFields malformedExec
        = Except.error (.attributeError ("object has no attribute " ++ pyquote "rows")) ∧
    shapeFields malformedExec ≠ Except.ok (0, [], []) ∧
    execute_query (envOk malformedExec) 7 Option.none
        = [("error", .str ("object has no attribute " ++ pyquote "rows")),
           ("query_id", .int 7)] := by
  refine ⟨rfl, ?_, rfl⟩
  intro h
  rw [show shapeFields malformedExec
      = Except.error (.attributeError ("object has no attribute " ++ pyquote "rows"))
    from rfl] at h
  exact Except.noConfusion h

/-- C4 amended: the shaping expressions can raise on a present-but-malformed
nested payload, and that exception is contained by the tool's own boundary:
`execute_query` then returns the error envelope (echoing `query_id`) rather
than the empty defaults; only an absent payload yields the defaults. -/
theorem malformedShapingContained (env : DuneEnv) (k : String) (qid : Int)
    (ps : Option (List (String × PyVal))) (results : RawExec) (e : PyErr)
    (hkey : env.DUNE_API_KEY = some k) (hk : k ≠ "")
    (hrun : ∀ q, env.client.run_query q = Except.ok results)
    (hshape : shapeFields results = Except.error e) :
    execute_query env qid ps
        = [("error", .str e.toMessage), ("query_id", .int qid)] := by
  simp [execute_query, execute_query_body, get_dune_client_ok env k hkey hk,
    exceptBindOk, hrun, hshape, exceptBindError, tryExcept]

/-- Witness for `malformedShapingContained` at the concrete malformed payload. -/
theorem malformedShapingContainedWitness :
    execute_query (envOk malformedExec) 8 Option.none
        = [("error", .str ("object has no attribute " ++ pyquote "rows")),
           ("query_id", .int 8)] :=
  malformedShapingContained (envOk malformedExec) "k" 8 Option.none malformedExec
    (.attributeError ("object has no attribute " ++ pyquote "rows")) rfl (by decide)
    (fun q => rfl) rfl

/-! ### C5: the `cached` flag (claim corrected) -/

/-- Counterexample to C5 as stated: a successful `execute_query` response
(no `"error"` key) carries no `"cached"` key at all, in particular not
`cached = false`. -/
theorem executeQueryHasNoCachedKey :
    (execute_query (envOk okExec) 1 Option.none).lookup "error" = Option.none ∧
    (execute_query (envOk okExec) 1 Option.none).lookup "cached" = Option.none ∧
    (execute_query (envOk okExec) 1 Option.none).lookup "cached"
      ≠ some (.bool false) := by
  refine ⟨rfl, rfl, ?_⟩
  intro h
  rw [show (execute_query (envOk okExec) 1 Option.none).lookup "cached" = Option.none
    from rfl] at h
  exact Option.noConfusion h

/-- C5 amended: every successful `get_latest_query_result` response carries
`cached = true`, while a successful `execute_query` response contains no
`cached` key at all (rather than `cached = false`). -/
theorem cachedFlagAsymmetry (env : DuneEnv) (k : String) (qid : Int)
    (ps : Option (List (String × PyVal))) (mah : Option Int)
    (results : RawExec) (c : Int) (cols : List String) (rws : List PyVal)
    (hkey : env.DUNE_API_KEY = some k) (hk : k ≠ "")
    (hrun : ∀ q, env.client.run_query q = Except.ok results)
    (hlat : ∀ i h, env.client.get_latest_result i h = Except.ok results)
    (hshape : shapeFields results = Except.ok (c, cols, rws)) :
    (get_latest_query_result env qid mah).lookup "cached" = some (.bool true) ∧
    (get_latest_query_result env qid mah).lookup "error" = Option.none ∧
    (execute_query env qid ps).lookup "cached" = Option.none ∧
    (execute_query env qid ps).lookup "error" = Option.none := by
  have hex : execute_query env qid ps
      = [("query_id", .int qid),
         ("execution_id", .str results.execution_id),
         ("state", .str results.state),
         ("row_count", .int c),
         ("columns", .list (cols.map PyVal.str)),
         ("rows", .list rws),
         ("is_execution_finished", .bool results.is_execution_finished)] := by
    simp [execute_query, execute_query_body, get_dune_client_ok env k hkey hk,
      exceptBindOk, hrun, hshape, tryExcept]
  have hla : get_latest_query_result env qid mah
      = [("query_id", .int qid),
         ("execution_id", .str results.execution_id),
         ("state", .str results.state),
         ("row_count", .int c),
         ("columns", .list (cols.map PyVal.str)),
         ("rows", .list rws),
         ("is_execution_finished", .bool results.is_execution_finished),
         ("cached", .bool true)] := by
    cases mah with
    | none =>
        simp [get_latest_query_result, get_latest_query_result_body,
          get_dune_client_ok env k hkey hk, exceptBindOk, pyTruthyIntOpt, hlat, hshape,
          tryExcept]
    | some h =>
        by_cases hz : h = 0
        · subst hz
          simp [get_latest_query_result, get_latest_query_result_body,
            get_dune_client_ok env k hkey hk, exceptBindOk, pyTruthyIntOpt, hlat, hshape,
            tryExcept]
        · simp [get_latest_query_result, get_latest_query_result_body,
            get_dune_client_ok env k hkey hk, exceptBindOk, pyTruthyIntOpt, hz, hlat,
            hshape, tryExcept]
  rw [hex, hla]
  exact ⟨rfl, rfl, rfl, rfl⟩

/-- Witness for `cachedFlagAsymmetry` at the concrete two-row execution. -/
theorem cachedFlagAsymmetryWitness :
    (get_latest_query_result (envOk okExec) 2 Option.none).lookup "cached"
        = some (.bool true) ∧
    (execute_query (envOk okExec) 2 Option.none).lookup "cached" = Option.none := by
  have h := cachedFlagAsymmetry (envOk okExec) "k" 2 Option.none Option.none okExec 2
    ["a", "b"]
    [.dict [("a", .int 1), ("b", .str "x")], .dict [("a", .int 2), ("b", .str "y")]]
    rfl (by decide) (fun q => rfl) (fun i hh => rfl) rfl
  exact ⟨h.1, h.2.2.1⟩

/-! ### C8: full table name construction -/

/-- C8: a successful `create_table` reports the namespaced full name
`dune.<ns>.<t>` while a successful `upload_csv_to_table` reports `dune.<t>`
with no namespace segment, and the two renderings always differ. -/
theorem fullTableNameAsymmetry (env : DuneEnv) (k ns t : String)
    (sch : List SchemaEntry) (d csv : String) (priv : Bool) (r : TableResult) (b : Bool)
    (hkey : env.DUNE_API_KEY = some k) (hk : k ≠ "")
    (hct : env.client.create_table ns t sch d priv = Except.ok r)
    (hup : env.client.upload_csv t csv d priv = Except.ok b) :
    (create_table env ns t sch d priv).lookup "full_table_name"
        = some (.str ("dune." ++ ns ++ "." ++ t)) ∧
    (upload_csv_to_table env t csv d priv).lookup "full_table_name"
        = some (.str ("dune." ++ t)) ∧
    ("dune." ++ ns ++ "." ++ t) ≠ ("dune." ++ t) := by
  refine ⟨?_, ?_, ?_⟩
  · have hresp : create_table env ns t sch d priv
        = [("success", .bool r.success),
           ("full_table_name", .str ("dune." ++ ns ++ "." ++ t)),
           ("namespace", .str ns),
           ("table_name", .str t),
           ("description", .str d),
           ("is_private", .bool priv),
           ("example_usage", .str ("SELECT * FROM dune." ++ ns ++ "." ++ t))] := by
      simp [create_table, create_table_body, get_dune_client_ok env k hkey hk,
        exceptBindOk, hct, tryExcept]
    rw [hresp]; rfl
  · have hresp : upload_csv_to_table env t csv d priv
        = [("success", .bool b),
           ("table_name", .str t),
           ("full_table_name", .str ("dune." ++ t)),
           ("description", .str d),
           ("is_private", .bool priv),
           ("example_usage", .str ("SELECT * FROM dune." ++ t))] := by
      simp [upload_csv_to_table, upload_csv_to_table_body, get_dune_client_ok env k hkey hk,
        exceptBindOk, hup, tryExcept]
    rw [hresp]; rfl
  · intro h
    have hlen := congrArg String.length h
    have h1 : ("." : String).length = 1 := rfl
    have h5 : ("dune." : String).length = 5 := rfl
    simp only [String.length_append, h1, h5] at hlen
    omega

/-- Witness for `fullTableNameAsymmetry` at concrete names. -/
theorem fullTableNameAsymmetryWitness :
    (create_table (envOk okExec) "myns" "tbl" [] "" false).lookup "full_table_name"
        = some (.str "dune.myns.tbl") ∧
    (upload_csv_to_table (envOk okExec) "tbl" "a,b" "" false).lookup "full_table_name"
        = some (.str "dune.tbl") := by
  have h := fullTableNameAsymmetry (envOk okExec) "k" "myns" "tbl" [] "" "a,b" false
    ⟨true⟩ true rfl (by decide) rfl rfl
  exact ⟨h.1, h.2.1⟩

/-! ### C9: table qualification in the query template helper -/

/-- Unfolding of `joinSep` on a list of at least two elements. -/
theorem joinSep_cons_cons (sep a b : String) (bs : List String) :
    joinSep sep (a :: b :: bs) = a ++ sep ++ joinSep sep (b :: bs) := rfl

/-- Every element of a joined list appears verbatim inside the join. -/
theorem joinSep_mem_decomp (sep : String) (f : String → String) :
    ∀ (ts : List String) (t : String), t ∈ ts →
      ∃ l r, joinSep sep (ts.map f) = l ++ f t ++ r := by
  intro ts
  induction ts with
  | nil => intro t h; exact absurd h (List.not_mem_nil t)
  | cons a as ih =>
    intro t h
    rcases List.mem_cons.mp h with heq | hmem
    · subst heq
      cases as with
      | nil => exact ⟨"", "", by simp [joinSep]⟩
      | cons b bs =>
          refine ⟨"", sep ++ joinSep sep ((b :: bs).map f), ?_⟩
          rw [List.map_cons, List.map_cons, joinSep_cons_cons]
          simp [String.append_assoc]
    · obtain ⟨l, r, hlr⟩ := ih t hmem
      cases as with
      | nil => exact absurd hmem (List.not_mem_nil t)
      | cons b bs =>
          refine ⟨f a ++ sep ++ l, r, ?_⟩
          rw [List.map_cons, List.map_cons, joinSep_cons_cons]
          rw [List.map_cons] at hlr
          rw [hlr]
          simp [String.append_assoc]

/-- C9: with a nonempty `tables` list, the helper's rendered template embeds
the FROM clause built by `buildFromClause`, inside which every table name
appears — qualified with the fixed `dune.` prefix exactly when it does not
already start with `dune.`, and passed through unchanged otherwise. -/
theorem fromClauseQualification (d : String) (ts : List String) (fl : Option String)
    (t : String) (hne : ts ≠ []) (hmem : t ∈ ts) :
    (query_builder_helper d (some ts) fl).lookup "template_sql"
        = some (.str (templateSql d (some ts) fl)) ∧
    (∃ pre post, templateSql d (some ts) fl
        = pre ++ ("FROM " ++ buildFromClause ts ++ "\n") ++ post) ∧
    (∃ l r, buildFromClause ts = l ++ qualifyTable t ++ r) ∧
    (pyStartsWith t "dune." = false → qualifyTable t = "dune." ++ t) ∧
    (pyStartsWith t "dune." = true → qualifyTable t = t) := by
  refine ⟨rfl, ?_, ?_, ?_, ?_⟩
  · have htr : pyTruthyListOpt (some ts) = true := by
      cases ts with
      | nil => exact absurd rfl hne
      | cons a as => rfl
    refine ⟨"\n-- Dune v2 SQL Query: " ++ d ++
        "\nSELECT\n    -- Select your columns here\n    *\n",
      (if pyTruthyStrOpt fl then "WHERE\n    " ++ fl.getD "" ++ "\n" else "") ++
        "\n-- Optional: Add GROUP BY, ORDER BY, LIMIT clauses\n-- ORDER BY column_name\n-- LIMIT 1000\n", ?_⟩
    unfold templateSql
    rw [htr]
    have hsplit : ("\nSELECT\n    -- Select your columns here\n    *\nFROM " : String)
        = "\nSELECT\n    -- Select your columns here\n    *\n" ++ "FROM " := rfl
    cases hfl : pyTruthyStrOpt fl <;>
      simp only [Option.getD, hsplit, String.append_assoc, if_true, if_false,
        Bool.false_eq_true, ite_false, ite_true] <;> rfl
  · exact joinSep_mem_decomp ", " qualifyTable ts t hmem
  · intro h; simp [qualifyTable, h]
  · intro h; simp [qualifyTable, h]

/-- Witness for `fromClauseQualification` at a concrete table list. -/
theorem fromClauseQualificationWitness :
    (query_builder_helper "top txs" (some ["ethereum.transactions", "dune.me.t"])
        (some "gas > 0")).lookup "template_sql"
      = some (.str (templateSql "top txs" (some ["ethereum.transactions", "dune.me.t"])
          (some "gas > 0"))) ∧
    qualifyTable "ethereum.transactions" = "dune.ethereum.transactions" ∧
    (∃ l r, buildFromClause ["ethereum.transactions", "dune.me.t"]
        = l ++ qualifyTable "ethereum.transactions" ++ r) := by
  have h := fromClauseQualification "top txs" ["ethereum.transactions", "dune.me.t"]
    (some "gas > 0") "ethereum.transactions" (by decide) (by decide)
  exact ⟨h.1, h.2.2.2.1 (by decide), h.2.2.1⟩

end DuneMCP
